import Mathlib

/-!
Verification of the card_print sheet-layout engine.

Millimeter quantities and the DPI value are embedded as exact rationals (ℚ);
pixel quantities are integers (ℤ).  Python's `int()` truncation is modelled by
`pyInt`, Python's floor division `//` by `Int.fdiv`, and Python's `str.lower`
by `pyLower` (the configuration strings involved are ASCII).  The drawing
collaborator (PIL) is abstracted: a drawn line is recorded as its pair of
endpoints, and image loading is an oracle `String → Option α` so that both the
success and the failure path of the source's try/except block are visible.
-/

namespace CardPrint

/-- A drawn line segment, recorded as its two integer pixel endpoints. -/
abbrev Segment : Type := (ℤ × ℤ) × (ℤ × ℤ)

/-- Python `int()` on an exact rational: truncation toward zero. -/
def pyInt (q : ℚ) : ℤ := if 0 ≤ q then ⌊q⌋ else ⌈q⌉

/-- Python `str.lower` restricted to ASCII, which covers every configuration
string this program compares (sheet_generator.py line 30). -/
def pyLower (s : String) : String := ⟨s.data.map Char.toLower⟩

/-- The single millimeter→pixel scale factor of a run:
`mm_to_pixels = dpi / 25.4` (sheet_generator.py line 53). -/
def mm_to_pixels (dpi : ℚ) : ℚ := dpi / 25.4

/-- Millimeter→pixel conversion as applied throughout a run:
`int(mm * mm_to_pixels)` (sheet_generator.py lines 54-65). -/
def mm_to_px (mm dpi : ℚ) : ℤ := pyInt (mm * mm_to_pixels dpi)

/-- Orientation normalization (sheet_generator.py lines 30-48): the raw
`PAPER_ORIENTATION` string is lowercased; `"portrait"` swaps the paper to
taller-than-wide, anything else swaps it to wider-than-tall. -/
def normalize_orientation (base_width_mm base_height_mm : ℚ)
    (raw_orientation : String) : ℚ × ℚ :=
  if pyLower raw_orientation = "portrait" then
    if base_width_mm > base_height_mm then (base_height_mm, base_width_mm)
    else (base_width_mm, base_height_mm)
  else
    if base_width_mm < base_height_mm then (base_height_mm, base_width_mm)
    else (base_width_mm, base_height_mm)

/-- The diagnostic payload printed by `_validate_grid_fits` when the grid does
not fit (sheet_generator.py lines 214-255).  `altOrientationGrid` records the
"try the other orientation" suggestion, which the source prints only when that
orientation would accommodate the requested grid (lines 241 and 248). -/
structure FitFailure where
  totalWidthNeeded : ℚ
  totalHeightNeeded : ℚ
  widthFits : Bool
  heightFits : Bool
  maxCols : ℤ
  maxRows : ℤ
  altOrientationGrid : Option (ℤ × ℤ)
deriving Repr, DecidableEq

/-- Grid-fit validation (sheet_generator.py lines 191-257).  `none` means the
grid fits and the run proceeds; `some` carries the diagnostic payload after
which the source calls `sys.exit(1)`.  The two orientation branches of the
source (lines 237-250) compute identical numbers and differ only in the label
of the printed text, so they are written here as one expression. -/
def validate_grid_fits (paper_width_mm paper_height_mm card_width_mm
    card_height_mm gap_mm : ℚ) (grid_cols grid_rows : ℕ)
    (orientation : String) : Option FitFailure :=
  let total_width_needed :=
    card_width_mm * grid_cols + gap_mm * ((grid_cols : ℚ) - 1)
  let total_height_needed :=
    card_height_mm * grid_rows + gap_mm * ((grid_rows : ℚ) - 1)
  let width_fits := total_width_needed ≤ paper_width_mm
  let height_fits := total_height_needed ≤ paper_height_mm
  if ¬width_fits ∨ ¬height_fits then
    let max_cols := pyInt ((paper_width_mm + gap_mm) / (card_width_mm + gap_mm))
    let max_rows := pyInt ((paper_height_mm + gap_mm) / (card_height_mm + gap_mm))
    let alt_cols := pyInt ((paper_height_mm + gap_mm) / (card_width_mm + gap_mm))
    let alt_rows := pyInt ((paper_width_mm + gap_mm) / (card_height_mm + gap_mm))
    some
      { totalWidthNeeded := total_width_needed
        totalHeightNeeded := total_height_needed
        widthFits := decide width_fits
        heightFits := decide height_fits
        maxCols := max_cols
        maxRows := max_rows
        altOrientationGrid :=
          if orientation = "portrait" then
            if (grid_cols : ℤ) ≤ alt_cols ∧ (grid_rows : ℤ) ≤ alt_rows then
              some (alt_cols, alt_rows)
            else none
          else
            if (grid_cols : ℤ) ≤ alt_cols ∧ (grid_rows : ℤ) ≤ alt_rows then
              some (alt_cols, alt_rows)
            else none }
  else none

/-- Pagination (sheet_generator.py lines 106 and 132-136): page `page_num`
holds the slice `image_files[page_num*cards_per_page : min((page_num+1)*
cards_per_page, len)]`, which is `take cards_per_page` of the corresponding
`drop`. -/
def paginate {α : Type} (cards : List α) (cards_per_page : ℕ) :
    List (List α) :=
  let total_pages := (cards.length + cards_per_page - 1) / cards_per_page
  (List.range total_pages).map
    (fun page_num => (cards.drop (page_num * cards_per_page)).take cards_per_page)

/-- Total grid pixel width (sheet_generator.py line 125). -/
def total_grid_width (card_width_px spacing_px : ℤ) (grid_cols : ℕ) : ℤ :=
  card_width_px * grid_cols + spacing_px * ((grid_cols : ℤ) - 1)

/-- Total grid pixel height (sheet_generator.py line 126). -/
def total_grid_height (card_height_px spacing_px : ℤ) (grid_rows : ℕ) : ℤ :=
  card_height_px * grid_rows + spacing_px * ((grid_rows : ℤ) - 1)

/-- Horizontal grid start (sheet_generator.py line 128); Python `//` is floor
division, hence `Int.fdiv`. -/
def start_x (paper_width_px tgw : ℤ) : ℤ := (paper_width_px - tgw).fdiv 2

/-- Vertical grid start (sheet_generator.py line 129). -/
def start_y (paper_height_px tgh : ℤ) : ℤ := (paper_height_px - tgh).fdiv 2

/-- Card placement (`_place_cards`, page_builder.py lines 100-147).  The
output records each successful paste as (x, y, image).  In the source,
`card_index` is incremented on every visited slot whether or not the load
succeeded, and the nested loop breaks once `card_index` reaches
`len(image_files)`; since `card_index` always equals the row-major slot index
`row * grid_cols + col`, the visited slots are exactly those whose row-major
index is below `image_files.length`, which the filter below expresses.  A
failed load (`none`) prints an error and pastes nothing, but still advances to
the next slot. -/
def place_cards {α : Type} (load : String → Option α) (image_files : List String)
    (grid_rows grid_cols : ℕ)
    (sx sy card_width_px card_height_px spacing_px : ℤ) : List (ℤ × ℤ × α) :=
  ((List.range grid_rows).map (fun row =>
    (((List.range grid_cols).filter
        (fun col => decide (row * grid_cols + col < image_files.length))).filterMap
      (fun col =>
        (load (image_files.getD (row * grid_cols + col) "")).map
          (fun img =>
            (sx + (col : ℤ) * (card_width_px + spacing_px),
             sy + (row : ℤ) * (card_height_px + spacing_px), img)))))).flatten

/-- One corner cross (page_builder.py lines 193-213): a horizontal segment and
a vertical segment, each extending `mark_length` on both sides of the corner
point. -/
def crossAt (corner_x corner_y mark_length : ℤ) : List Segment :=
  [((corner_x - mark_length, corner_y), (corner_x + mark_length, corner_y)),
   ((corner_x, corner_y - mark_length), (corner_x, corner_y + mark_length))]

/-- Corner cut marks (`_add_corner_marks`, page_builder.py lines 150-218).
`mark_length = int(MARK_LENGTH_MM * MM_TO_PIXELS)` (line 164).  The loop over
slots is the same break-at-`card_index` pattern as `_place_cards`, expressed
with the same row-major filter. -/
def add_corner_marks (num_images : ℕ) (grid_rows grid_cols : ℕ)
    (sx sy card_width_px card_height_px spacing_px : ℤ)
    (mark_length_mm MM_TO_PIXELS : ℚ) : List Segment :=
  let mark_length := pyInt (mark_length_mm * MM_TO_PIXELS)
  ((List.range grid_rows).map (fun row =>
    ((((List.range grid_cols).filter
        (fun col => decide (row * grid_cols + col < num_images))).map
      (fun (col : ℕ) =>
        let x := sx + (col : ℤ) * (card_width_px + spacing_px)
        let y := sy + (row : ℤ) * (card_height_px + spacing_px)
        (([(x, y), (x + card_width_px, y), (x, y + card_height_px),
           (x + card_width_px, y + card_height_px)]).map
          (fun c => crossAt c.1 c.2 mark_length)).flatten)).flatten))).flatten

/-- Guide lines (`_add_guide_lines`, page_builder.py lines 221-262): when
enabled, `grid_cols + 1` vertical lines at `x = start_x + col * (card_w +
spacing)` spanning the grid height, then `grid_rows + 1` horizontal lines at
`y = start_y + row * (card_h + spacing)` spanning the grid width. -/
def add_guide_lines (guide_line_enabled : Bool) (grid_rows grid_cols : ℕ)
    (sx sy card_width_px card_height_px spacing_px : ℤ) : List Segment :=
  if !guide_line_enabled then [] else
  let tgw := total_grid_width card_width_px spacing_px grid_cols
  let tgh := total_grid_height card_height_px spacing_px grid_rows
  ((List.range (grid_cols + 1)).map (fun (col : ℕ) =>
    let x := sx + (col : ℤ) * (card_width_px + spacing_px)
    ((x, sy), (x, sy + tgh))))
  ++ ((List.range (grid_rows + 1)).map (fun (row : ℕ) =>
    let y := sy + (row : ℤ) * (card_height_px + spacing_px)
    ((sx, y), (sx + tgw, y))))

/-! ### Helper lemmas -/

lemma pyInt_of_nonneg {q : ℚ} (h : 0 ≤ q) : pyInt q = ⌊q⌋ := by
  simp [pyInt, h]

lemma mm_to_pixels_pos {dpi : ℚ} (h : 0 < dpi) : 0 < mm_to_pixels dpi := by
  unfold mm_to_pixels
  positivity

lemma mm_to_px_eq_floor {mm dpi : ℚ} (hmm : 0 ≤ mm) (hdpi : 0 < dpi) :
    mm_to_px mm dpi = ⌊mm * dpi / 25.4⌋ := by
  rw [mm_to_px, pyInt_of_nonneg (mul_nonneg hmm (mm_to_pixels_pos hdpi).le),
    mm_to_pixels, mul_div_assoc]

lemma start_x_eq_floor (p t : ℤ) : start_x p t = ⌊((p : ℚ) - (t : ℚ)) / 2⌋ := by
  have h2 : ((2 : ℕ) : ℚ) = 2 := by norm_num
  rw [start_x, Int.fdiv_eq_ediv _ (by norm_num), ← Int.cast_sub, ← h2,
    Rat.floor_intCast_div_natCast (p - t) 2]
  norm_num

lemma start_y_eq_floor (p t : ℤ) : start_y p t = ⌊((p : ℚ) - (t : ℚ)) / 2⌋ :=
  start_x_eq_floor p t

lemma filterMap_eq_flatten_map {α β : Type} (l : List α) (f : α → Option β) :
    l.filterMap f = (l.map (fun a => (f a).toList)).flatten := by
  induction l with
  | nil => rfl
  | cons a l ih =>
    cases h : f a <;>
      simp [List.filterMap_cons, h, ih, Option.toList]

/-- The break-at-`card_index` nested loop of page_builder.py, flattened: the
row-major traversal of a `rows × cols` grid that stops after `n` slots visits
exactly the slots whose row-major index `i = row * cols + col` is below `n`,
with `row = i / cols` and `col = i % cols`. -/
lemma row_major_flatten {β : Type} (cols n : ℕ) (hcols : 0 < cols)
    (g : ℕ → ℕ → List β) (rows : ℕ) :
    ((List.range rows).map (fun row =>
      (((List.range cols).filter
          (fun col => decide (row * cols + col < n))).map
        (fun col => g row col)).flatten)).flatten
    = (((List.range (rows * cols)).filter (fun i => decide (i < n))).map
        (fun i => g (i / cols) (i % cols))).flatten := by
  induction rows with
  | zero => simp
  | succ r ih =>
    rw [List.range_succ, List.map_append, List.flatten_append, ih, Nat.succ_mul,
      List.range_add, List.filter_append, List.map_append, List.flatten_append]
    congr 1
    rw [List.filter_map, List.map_map]
    simp only [List.map_cons, List.map_nil, List.flatten_cons, List.flatten_nil,
      List.append_nil]
    apply congrArg List.flatten
    apply List.map_congr_left
    intro c hc
    have hclt : c < cols := List.mem_range.mp (List.mem_filter.mp hc).1
    have h1 : r * cols + c = cols * r + c := by rw [Nat.mul_comm]
    simp only [Function.comp_apply, h1, Nat.mul_add_div hcols, Nat.mul_add_mod,
      Nat.div_eq_of_lt hclt, Nat.mod_eq_of_lt hclt, Nat.add_zero]

/-- Closed form of `_place_cards`: the card at row-major index `i` (for
`i < min(len, rows*cols)`) is pasted, when its load succeeds, at
`(start_x + (i mod cols)*(card_w + gap), start_y + (i div cols)*(card_h + gap))`. -/
lemma place_cards_closed {α : Type} (load : String → Option α)
    (image_files : List String) (grid_rows grid_cols : ℕ) (hcols : 0 < grid_cols)
    (sx sy w h g : ℤ) :
    place_cards load image_files grid_rows grid_cols sx sy w h g
    = ((List.range (grid_rows * grid_cols)).filter
        (fun i => decide (i < image_files.length))).filterMap
        (fun i => (load (image_files.getD i "")).map
          (fun img => (sx + ((i % grid_cols : ℕ) : ℤ) * (w + g),
            sy + ((i / grid_cols : ℕ) : ℤ) * (h + g), img))) := by
  unfold place_cards
  have hrw : ∀ row : ℕ,
      (((List.range grid_cols).filter
          (fun col => decide (row * grid_cols + col < image_files.length))).filterMap
        (fun col =>
          (load (image_files.getD (row * grid_cols + col) "")).map
            (fun img =>
              (sx + (col : ℤ) * (w + g), sy + (row : ℤ) * (h + g), img))))
      = (((List.range grid_cols).filter
          (fun col => decide (row * grid_cols + col < image_files.length))).map
        (fun col =>
          ((load (image_files.getD (row * grid_cols + col) "")).map
            (fun img =>
              (sx + (col : ℤ) * (w + g),
               sy + (row : ℤ) * (h + g), img))).toList)).flatten :=
    fun row => filterMap_eq_flatten_map _ _
  simp only [hrw]
  rw [row_major_flatten grid_cols image_files.length hcols
    (fun row col =>
      ((load (image_files.getD (row * grid_cols + col) "")).map
        (fun img =>
          (sx + (col : ℤ) * (w + g), sy + (row : ℤ) * (h + g), img))).toList)
    grid_rows]
  rw [← filterMap_eq_flatten_map]
  apply List.filterMap_congr
  intro i _
  have hidx : i / grid_cols * grid_cols + i % grid_cols = i := by
    rw [Nat.mul_comm]
    exact Nat.div_add_mod i grid_cols
  rw [hidx]

lemma dropLast_range (n : ℕ) : (List.range n).dropLast = List.range (n - 1) := by
  cases n with
  | zero => rfl
  | succ k => rw [List.range_succ, List.dropLast_concat, Nat.succ_sub_one]

lemma total_pages_bounds (len pp : ℕ) (hlen : 0 < len) (hpp : 0 < pp) :
    len ≤ ((len + pp - 1) / pp) * pp ∧
      (((len + pp - 1) / pp) - 1) * pp < len := by
  have hdm := Nat.div_add_mod (len + pp - 1) pp
  have hmod := Nat.mod_lt (len + pp - 1) hpp
  obtain ⟨t, ht⟩ : ∃ t, pp * ((len + pp - 1) / pp) = t := ⟨_, rfl⟩
  rw [ht] at hdm
  constructor
  · rw [Nat.mul_comm, ht]
    omega
  · rw [Nat.sub_mul, one_mul, Nat.mul_comm, ht]
    omega

lemma flatten_chunks {α : Type} (pp : ℕ) :
    ∀ (k : ℕ) (cards : List α), cards.length ≤ k * pp →
      ((List.range k).map
        (fun n => (cards.drop (n * pp)).take pp)).flatten = cards := by
  intro k
  induction k with
  | zero =>
    intro cards hlen
    rw [Nat.zero_mul] at hlen
    rw [List.length_eq_zero.mp (Nat.le_zero.mp hlen)]
    rfl
  | succ k ih =>
    intro cards hlen
    rw [List.range_succ_eq_map, List.map_cons, List.flatten_cons, List.map_map]
    have hmap : (List.range k).map
        ((fun n => (cards.drop (n * pp)).take pp) ∘ Nat.succ)
        = (List.range k).map
          (fun n => (((cards.drop pp).drop (n * pp)).take pp)) := by
      apply List.map_congr_left
      intro n _
      simp only [Function.comp_apply]
      rw [List.drop_drop]
      congr 2
      rw [Nat.succ_mul, Nat.add_comm]
    rw [Nat.zero_mul, List.drop_zero, hmap,
      ih (cards.drop pp) (by
        rw [List.length_drop]
        rw [Nat.succ_mul] at hlen
        exact Nat.sub_le_iff_le_add.mpr hlen),
      List.take_append_drop]

end CardPrint

namespace CardPrint

/-- C6: for every mm ≥ 0 and dpi > 0, the millimeter→pixel conversion equals
`floor(mm * dpi / 25.4)` using the shared per-run scale factor `dpi / 25.4`;
it is monotone non-decreasing in mm and maps 0 to 0. -/
theorem mm_to_px_spec (mm mm' dpi : ℚ) (hmm : 0 ≤ mm) (hmm' : 0 ≤ mm')
    (hdpi : 0 < dpi) :
    mm_to_px mm dpi = ⌊mm * dpi / 25.4⌋
    ∧ (mm ≤ mm' → mm_to_px mm dpi ≤ mm_to_px mm' dpi)
    ∧ mm_to_px 0 dpi = 0 := by
  have hs := (mm_to_pixels_pos hdpi).le
  refine ⟨mm_to_px_eq_floor hmm hdpi, fun hle => ?_, ?_⟩
  · rw [mm_to_px, mm_to_px, pyInt_of_nonneg (mul_nonneg hmm hs),
      pyInt_of_nonneg (mul_nonneg hmm' hs)]
    exact Int.floor_le_floor (mul_le_mul_of_nonneg_right hle hs)
  · rw [mm_to_px, zero_mul, pyInt_of_nonneg le_rfl, Int.floor_zero]

/-- Witness for C6 at mm = 2, mm' = 3, dpi = 300. -/
theorem mm_to_px_spec_witness :
    mm_to_px 2 300 = ⌊(2 : ℚ) * 300 / 25.4⌋
    ∧ ((2 : ℚ) ≤ 3 → mm_to_px 2 300 ≤ mm_to_px 3 300)
    ∧ mm_to_px 0 300 = 0 :=
  mm_to_px_spec 2 3 300 (by norm_num) (by norm_num) (by norm_num)

/-- C7: orientation normalization returns (max, min) of the two paper sizes
unless the lowercased orientation string is exactly "portrait", in which case
it returns (min, max); it is a pure total function. -/
theorem normalize_orientation_spec (w h : ℚ) (o : String) (hw : 0 < w)
    (hh : 0 < h) :
    normalize_orientation w h o =
      if pyLower o = "portrait" then (min w h, max w h)
      else (max w h, min w h) := by
  unfold normalize_orientation
  by_cases hp : pyLower o = "portrait"
  · rw [if_pos hp, if_pos hp]
    rcases le_or_lt w h with hle | hlt
    · rw [if_neg (not_lt.mpr hle), min_eq_left hle, max_eq_right hle]
    · rw [if_pos hlt, min_eq_right hlt.le, max_eq_left hlt.le]
  · rw [if_neg hp, if_neg hp]
    rcases lt_or_le w h with hlt | hle
    · rw [if_pos hlt, max_eq_right hlt.le, min_eq_left hlt.le]
    · rw [if_neg (not_lt.mpr hle), max_eq_left hle, min_eq_right hle]

/-- Witness for C7 at (210, 297, "Portrait"). -/
theorem normalize_orientation_spec_witness :
    normalize_orientation 210 297 "Portrait" =
      if pyLower "Portrait" = "portrait" then (min (210 : ℚ) 297, max (210 : ℚ) 297)
      else (max (210 : ℚ) 297, min (210 : ℚ) 297) :=
  normalize_orientation_spec 210 297 "Portrait" (by norm_num) (by norm_num)

/-- C3: for a non-empty card sequence and per_page ≥ 1, pagination produces
consecutive chunks in original order whose concatenation reproduces the input;
the page count is `(len + per_page - 1) / per_page`, which is the ceiling of
`len / per_page` (characterized by the two inequalities below); every page
except possibly the last has exactly per_page cards, and the last has between
1 and per_page cards. -/
theorem paginate_spec {α : Type} (cards : List α) (cards_per_page : ℕ)
    (hne : cards ≠ []) (hpp : 1 ≤ cards_per_page) :
    (paginate cards cards_per_page).flatten = cards
    ∧ (paginate cards cards_per_page).length
        = (cards.length + cards_per_page - 1) / cards_per_page
    ∧ cards.length ≤ (paginate cards cards_per_page).length * cards_per_page
    ∧ ((paginate cards cards_per_page).length - 1) * cards_per_page < cards.length
    ∧ (paginate cards cards_per_page).dropLast.all
        (fun page => decide (page.length = cards_per_page)) = true
    ∧ 1 ≤ ((paginate cards cards_per_page).getLastD []).length
    ∧ ((paginate cards cards_per_page).getLastD []).length ≤ cards_per_page := by
  have hlen : 0 < cards.length := List.length_pos.mpr hne
  obtain ⟨hb1, hb2⟩ := total_pages_bounds cards.length cards_per_page hlen hpp
  have hlength : (paginate cards cards_per_page).length
      = (cards.length + cards_per_page - 1) / cards_per_page := by
    unfold paginate
    rw [List.length_map, List.length_range]
  have htp : 0 < (cards.length + cards_per_page - 1) / cards_per_page := by
    rcases Nat.eq_zero_or_pos ((cards.length + cards_per_page - 1) / cards_per_page)
      with h0 | h
    · rw [h0, Nat.zero_mul] at hb1
      omega
    · exact h
  refine ⟨?_, hlength, ?_, ?_, ?_, ?_, ?_⟩
  · exact flatten_chunks cards_per_page _ cards hb1
  · rw [hlength]
    exact hb1
  · rw [hlength]
    exact hb2
  · rw [List.all_eq_true]
    intro page hpage
    unfold paginate at hpage
    rw [← List.map_dropLast, dropLast_range] at hpage
    obtain ⟨n, hn, hfn⟩ := List.mem_map.mp hpage
    have hnlt : n < (cards.length + cards_per_page - 1) / cards_per_page - 1 :=
      List.mem_range.mp hn
    have hfit : n * cards_per_page + cards_per_page ≤ cards.length := by
      have hstep : (n + 1) * cards_per_page
          ≤ ((cards.length + cards_per_page - 1) / cards_per_page - 1)
            * cards_per_page :=
        Nat.mul_le_mul_right cards_per_page (by omega)
      rw [Nat.succ_mul] at hstep
      omega
    rw [← hfn]
    simp only [List.length_take, List.length_drop, decide_eq_true_eq]
    rw [min_eq_left]
    exact Nat.le_sub_of_add_le (by omega)
  · obtain ⟨k, hk⟩ : ∃ k, (cards.length + cards_per_page - 1) / cards_per_page
        = k + 1 := ⟨_, (Nat.succ_pred_eq_of_pos htp).symm⟩
    simp only [paginate]
    rw [hk, List.range_succ, List.map_append, List.map_cons, List.map_nil,
      List.getLastD_concat]
    simp only [List.length_take, List.length_drop]
    have hklt : k * cards_per_page < cards.length := by
      have := hb2
      rw [hk, Nat.add_sub_cancel] at this
      exact this
    exact le_min hpp (by omega)
  · obtain ⟨k, hk⟩ : ∃ k, (cards.length + cards_per_page - 1) / cards_per_page
        = k + 1 := ⟨_, (Nat.succ_pred_eq_of_pos htp).symm⟩
    simp only [paginate]
    rw [hk, List.range_succ, List.map_append, List.map_cons, List.map_nil,
      List.getLastD_concat]
    simp only [List.length_take, List.length_drop]
    exact min_le_left _ _

/-- Witness for C3 at cards = [0,1,2,3,4], per_page = 2. -/
theorem paginate_spec_witness :
    (paginate [0, 1, 2, 3, 4] 2).flatten = [0, 1, 2, 3, 4]
    ∧ (paginate [0, 1, 2, 3, 4] 2).length
        = (([0, 1, 2, 3, 4] : List ℕ).length + 2 - 1) / 2
    ∧ ([0, 1, 2, 3, 4] : List ℕ).length ≤ (paginate [0, 1, 2, 3, 4] 2).length * 2
    ∧ ((paginate [0, 1, 2, 3, 4] 2).length - 1) * 2
        < ([0, 1, 2, 3, 4] : List ℕ).length
    ∧ (paginate [0, 1, 2, 3, 4] 2).dropLast.all
        (fun page => decide (page.length = 2)) = true
    ∧ 1 ≤ ((paginate [0, 1, 2, 3, 4] 2).getLastD []).length
    ∧ ((paginate [0, 1, 2, 3, 4] 2).getLastD []).length ≤ 2 :=
  paginate_spec [0, 1, 2, 3, 4] 2 (by simp) (by norm_num)

/-- C9: a failed image load is recovered locally.  If `load` fails on the
card at row-major index `i` and agrees with `good` on every other card, the
rendered pastes are exactly those of `good` with slot `i` left blank: every
other card keeps its original slot position, and all later slots and cards
are still rendered. -/
theorem place_cards_localized_failure {α : Type} (load good : String → Option α)
    (image_files : List String) (grid_rows grid_cols : ℕ) (i : ℕ)
    (sx sy w h g : ℤ) (hcols : 0 < grid_cols)
    (hagree : ∀ j, j ≠ i →
      load (image_files.getD j "") = good (image_files.getD j ""))
    (hfail : load (image_files.getD i "") = none) :
    place_cards load image_files grid_rows grid_cols sx sy w h g
    = ((List.range (grid_rows * grid_cols)).filter
        (fun j => decide (j < image_files.length))).filterMap
        (fun j => if j = i then none
          else (good (image_files.getD j "")).map
            (fun img => (sx + ((j % grid_cols : ℕ) : ℤ) * (w + g),
              sy + ((j / grid_cols : ℕ) : ℤ) * (h + g), img))) := by
  rw [place_cards_closed load image_files grid_rows grid_cols hcols]
  apply List.filterMap_congr
  intro j _
  by_cases hji : j = i
  · subst hji
    rw [hfail, if_pos rfl]
    rfl
  · rw [if_neg hji, hagree j hji]

/-- Witness for C9: three cards on a 2×2 grid, the load of "b.png" (slot 1)
fails. -/
theorem place_cards_localized_failure_witness :
    place_cards (fun s => if s = "b.png" then none else some s)
        ["a.png", "b.png", "c.png"] 2 2 0 0 10 20 1
    = ((List.range (2 * 2)).filter
        (fun j => decide (j < (["a.png", "b.png", "c.png"] : List String).length))).filterMap
        (fun j => if j = 1 then none
          else (some ((["a.png", "b.png", "c.png"] : List String).getD j "")).map
            (fun img => ((0 : ℤ) + ((j % 2 : ℕ) : ℤ) * (10 + 1),
              (0 : ℤ) + ((j / 2 : ℕ) : ℤ) * (20 + 1), img))) :=
  place_cards_localized_failure (fun s => if s = "b.png" then none else some s)
    (fun s => some s) ["a.png", "b.png", "c.png"] 2 2 1 0 0 10 20 1
    (by norm_num)
    (fun j hj => by
      match j with
      | 0 => rfl
      | 1 => exact absurd rfl hj
      | 2 => rfl
      | n + 3 =>
        rw [List.getD_eq_default _ _ (by simp)]
        rfl)
    rfl

/-- Full characterization of `validate_grid_fits` with `pyInt` resolved to
floors (all its arguments are ratios of positive quantities here). -/
lemma validate_grid_fits_eq (pw ph cw ch gap : ℚ) (cols rows : ℕ) (o : String)
    (hpw : 0 < pw) (hph : 0 < ph) (hcw : 0 < cw) (hch : 0 < ch)
    (hgap : 0 < gap) :
    validate_grid_fits pw ph cw ch gap cols rows o
    = if pw < cw * cols + gap * ((cols : ℚ) - 1)
        ∨ ph < ch * rows + gap * ((rows : ℚ) - 1) then
        some
          { totalWidthNeeded := cw * cols + gap * ((cols : ℚ) - 1)
            totalHeightNeeded := ch * rows + gap * ((rows : ℚ) - 1)
            widthFits := decide (cw * cols + gap * ((cols : ℚ) - 1) ≤ pw)
            heightFits := decide (ch * rows + gap * ((rows : ℚ) - 1) ≤ ph)
            maxCols := ⌊(pw + gap) / (cw + gap)⌋
            maxRows := ⌊(ph + gap) / (ch + gap)⌋
            altOrientationGrid :=
              if (cols : ℤ) ≤ ⌊(ph + gap) / (cw + gap)⌋
                  ∧ (rows : ℤ) ≤ ⌊(pw + gap) / (ch + gap)⌋ then
                some (⌊(ph + gap) / (cw + gap)⌋, ⌊(pw + gap) / (ch + gap)⌋)
              else none }
      else none := by
  have h1 : pyInt ((pw + gap) / (cw + gap)) = ⌊(pw + gap) / (cw + gap)⌋ :=
    pyInt_of_nonneg (by positivity)
  have h2 : pyInt ((ph + gap) / (ch + gap)) = ⌊(ph + gap) / (ch + gap)⌋ :=
    pyInt_of_nonneg (by positivity)
  have h3 : pyInt ((ph + gap) / (cw + gap)) = ⌊(ph + gap) / (cw + gap)⌋ :=
    pyInt_of_nonneg (by positivity)
  have h4 : pyInt ((pw + gap) / (ch + gap)) = ⌊(pw + gap) / (ch + gap)⌋ :=
    pyInt_of_nonneg (by positivity)
  simp only [validate_grid_fits, h1, h2, h3, h4, ite_self]
  exact if_congr (by rw [not_le, not_le]) rfl rfl

/-- C2: for positive millimeter sizes and grid dimensions ≥ 1, grid-fit
validation fails exactly when the required width exceeds the paper width or
the required height exceeds the paper height (required width =
`card_w*cols + gap*(cols-1)`, similarly for height); on failure the reported
maximum grid is `floor((paper+gap)/(card+gap))` in each axis. -/
theorem validate_grid_fits_spec (pw ph cw ch gap : ℚ) (cols rows : ℕ)
    (o : String) (hpw : 0 < pw) (hph : 0 < ph) (hcw : 0 < cw) (hch : 0 < ch)
    (hgap : 0 < gap) (hcols : 1 ≤ cols) (hrows : 1 ≤ rows) :
    ((validate_grid_fits pw ph cw ch gap cols rows o).isSome = true ↔
      (pw < cw * cols + gap * ((cols : ℚ) - 1)
        ∨ ph < ch * rows + gap * ((rows : ℚ) - 1)))
    ∧ (validate_grid_fits pw ph cw ch gap cols rows o).map
        (fun f => (f.maxCols, f.maxRows))
      = if pw < cw * cols + gap * ((cols : ℚ) - 1)
          ∨ ph < ch * rows + gap * ((rows : ℚ) - 1)
        then some (⌊(pw + gap) / (cw + gap)⌋, ⌊(ph + gap) / (ch + gap)⌋)
        else none := by
  rw [validate_grid_fits_eq pw ph cw ch gap cols rows o hpw hph hcw hch hgap]
  by_cases hc : pw < cw * cols + gap * ((cols : ℚ) - 1)
      ∨ ph < ch * rows + gap * ((rows : ℚ) - 1)
  · rw [if_pos hc, if_pos hc]
    exact ⟨by simp [hc], rfl⟩
  · rw [if_neg hc, if_neg hc]
    exact ⟨by simp [hc], rfl⟩

/-- Witness for C2: a 10×10 grid of 63×88 mm cards with 3 mm gap on A4
landscape (297×210 mm). -/
theorem validate_grid_fits_spec_witness :
    ((validate_grid_fits 297 210 63 88 3 10 10 "landscape").isSome = true ↔
      ((297 : ℚ) < 63 * (10 : ℕ) + 3 * (((10 : ℕ) : ℚ) - 1)
        ∨ (210 : ℚ) < 88 * (10 : ℕ) + 3 * (((10 : ℕ) : ℚ) - 1)))
    ∧ (validate_grid_fits 297 210 63 88 3 10 10 "landscape").map
        (fun f => (f.maxCols, f.maxRows))
      = if (297 : ℚ) < 63 * (10 : ℕ) + 3 * (((10 : ℕ) : ℚ) - 1)
          ∨ (210 : ℚ) < 88 * (10 : ℕ) + 3 * (((10 : ℕ) : ℚ) - 1)
        then some (⌊((297 : ℚ) + 3) / (63 + 3)⌋, ⌊((210 : ℚ) + 3) / (88 + 3)⌋)
        else none :=
  validate_grid_fits_spec 297 210 63 88 3 10 10 "landscape" (by norm_num)
    (by norm_num) (by norm_num) (by norm_num) (by norm_num) (by norm_num)
    (by norm_num)

/-- C8 counterexample: for a failing 10×10 grid of 63×88 mm cards on A4
landscape, validation fails but the diagnostic payload does NOT include the
opposite-orientation maximum grid: portrait would only fit 3 columns
(⌊213/66⌋ = 3 < 10), so the source suppresses the suggestion entirely. -/
theorem validate_grid_fits_opposite_cex :
    (validate_grid_fits 297 210 63 88 3 10 10 "landscape").isSome = true
    ∧ (validate_grid_fits 297 210 63 88 3 10 10 "landscape").map
        FitFailure.altOrientationGrid = some none := by
  rw [validate_grid_fits_eq 297 210 63 88 3 10 10 "landscape" (by norm_num)
    (by norm_num) (by norm_num) (by norm_num) (by norm_num)]
  have hfail : (297 : ℚ) < 63 * ((10 : ℕ) : ℚ) + 3 * (((10 : ℕ) : ℚ) - 1)
      ∨ (210 : ℚ) < 88 * ((10 : ℕ) : ℚ) + 3 * (((10 : ℕ) : ℚ) - 1) := by
    left
    push_cast
    norm_num
  rw [if_pos hfail]
  refine ⟨rfl, ?_⟩
  have halt : ¬(((10 : ℕ) : ℤ) ≤ ⌊((210 : ℚ) + 3) / (63 + 3)⌋
      ∧ ((10 : ℕ) : ℤ) ≤ ⌊((297 : ℚ) + 3) / (88 + 3)⌋) := by
    intro hx
    have h1 : ⌊((210 : ℚ) + 3) / (63 + 3)⌋ = 3 := by norm_num
    rw [h1] at hx
    have h2 := hx.1
    push_cast at h2
  exact congrArg some (if_neg halt)

/-- C8 (amended): whenever grid-fit validation fails, the diagnostic includes
the required width/height, which dimension(s) failed, and the maximum
columns/rows that would fit; the maximum grid achievable in the opposite
orientation is included only when that grid would accommodate the requested
`cols × rows` (otherwise the suggestion is omitted). -/
theorem validate_grid_fits_failure_payload (pw ph cw ch gap : ℚ)
    (cols rows : ℕ) (o : String) (hpw : 0 < pw) (hph : 0 < ph) (hcw : 0 < cw)
    (hch : 0 < ch) (hgap : 0 < gap)
    (hfail : pw < cw * cols + gap * ((cols : ℚ) - 1)
      ∨ ph < ch * rows + gap * ((rows : ℚ) - 1)) :
    validate_grid_fits pw ph cw ch gap cols rows o
    = some
        { totalWidthNeeded := cw * cols + gap * ((cols : ℚ) - 1)
          totalHeightNeeded := ch * rows + gap * ((rows : ℚ) - 1)
          widthFits := decide (cw * cols + gap * ((cols : ℚ) - 1) ≤ pw)
          heightFits := decide (ch * rows + gap * ((rows : ℚ) - 1) ≤ ph)
          maxCols := ⌊(pw + gap) / (cw + gap)⌋
          maxRows := ⌊(ph + gap) / (ch + gap)⌋
          altOrientationGrid :=
            if (cols : ℤ) ≤ ⌊(ph + gap) / (cw + gap)⌋
                ∧ (rows : ℤ) ≤ ⌊(pw + gap) / (ch + gap)⌋ then
              some (⌊(ph + gap) / (cw + gap)⌋, ⌊(pw + gap) / (ch + gap)⌋)
            else none } := by
  rw [validate_grid_fits_eq pw ph cw ch gap cols rows o hpw hph hcw hch hgap,
    if_pos hfail]

/-- Witness for the amended C8: a 4×2 grid of 63×88 mm cards on A4 portrait
(210×297 mm) fails in width; landscape would fit the grid (4 ≤ ⌊300/66⌋ and
2 ≤ ⌊213/91⌋), so here the opposite-orientation suggestion is present. -/
theorem validate_grid_fits_failure_payload_witness :
    validate_grid_fits 210 297 63 88 3 4 2 "portrait"
    = some
        { totalWidthNeeded := 63 * ((4 : ℕ) : ℚ) + 3 * (((4 : ℕ) : ℚ) - 1)
          totalHeightNeeded := 88 * ((2 : ℕ) : ℚ) + 3 * (((2 : ℕ) : ℚ) - 1)
          widthFits := decide (63 * ((4 : ℕ) : ℚ) + 3 * (((4 : ℕ) : ℚ) - 1) ≤ 210)
          heightFits := decide (88 * ((2 : ℕ) : ℚ) + 3 * (((2 : ℕ) : ℚ) - 1) ≤ 297)
          maxCols := ⌊((210 : ℚ) + 3) / (63 + 3)⌋
          maxRows := ⌊((297 : ℚ) + 3) / (88 + 3)⌋
          altOrientationGrid :=
            if ((4 : ℕ) : ℤ) ≤ ⌊((297 : ℚ) + 3) / (63 + 3)⌋
                ∧ ((2 : ℕ) : ℤ) ≤ ⌊((210 : ℚ) + 3) / (88 + 3)⌋ then
              some (⌊((297 : ℚ) + 3) / (63 + 3)⌋, ⌊((210 : ℚ) + 3) / (88 + 3)⌋)
            else none } :=
  validate_grid_fits_failure_payload 210 297 63 88 3 4 2 "portrait"
    (by norm_num) (by norm_num) (by norm_num) (by norm_num) (by norm_num)
    (by left; push_cast; norm_num)

/-- C5 counterexample: with a 1×2 grid of 10×20 px cards and 5 px gap at
start (0,0), the grid's right edge is at x = 25, but the three vertical guide
lines are drawn at x = 0, 15, 30: the last vertical line lies one gap past
the grid's right edge, and no vertical line is drawn at the right edge
itself. -/
theorem add_guide_lines_cex :
    add_guide_lines true 1 2 0 0 10 20 5
      = [((0, 0), (0, 20)), ((15, 0), (15, 20)), ((30, 0), (30, 20)),
         ((0, 0), (25, 0)), ((0, 25), (25, 25))]
    ∧ total_grid_width 10 5 2 = 25
    ∧ ((25, 0), (25, 20)) ∉ add_guide_lines true 1 2 0 0 10 20 5 := by
  refine ⟨by decide, by decide, by decide⟩

/-- C5 (amended): when enabled, the compositor draws `cols+1` vertical lines
at `x = start_x + col*(card_w_px + gap_px)` spanning the grid height and
`rows+1` horizontal lines at `y = start_y + row*(card_h_px + gap_px)`
spanning the grid width; these coincide with the grid boundaries only when
`gap_px = 0` — the last vertical line lies at the grid's right edge plus
`gap_px`, and the last horizontal line at the bottom edge plus `gap_px`. -/
theorem add_guide_lines_amended (grid_rows grid_cols : ℕ) (sx sy w h g : ℤ) :
    add_guide_lines true grid_rows grid_cols sx sy w h g
      = ((List.range (grid_cols + 1)).map (fun (col : ℕ) =>
          ((sx + (col : ℤ) * (w + g), sy),
           (sx + (col : ℤ) * (w + g), sy + total_grid_height h g grid_rows))))
        ++ ((List.range (grid_rows + 1)).map (fun (row : ℕ) =>
          ((sx, sy + (row : ℤ) * (h + g)),
           (sx + total_grid_width w g grid_cols, sy + (row : ℤ) * (h + g)))))
    ∧ (add_guide_lines true grid_rows grid_cols sx sy w h g).length
        = (grid_cols + 1) + (grid_rows + 1)
    ∧ sx + (grid_cols : ℤ) * (w + g)
        = (sx + total_grid_width w g grid_cols) + g
    ∧ sy + (grid_rows : ℤ) * (h + g)
        = (sy + total_grid_height h g grid_rows) + g := by
  refine ⟨rfl, ?_, ?_, ?_⟩
  · have he : add_guide_lines true grid_rows grid_cols sx sy w h g
        = ((List.range (grid_cols + 1)).map (fun (col : ℕ) =>
            ((sx + (col : ℤ) * (w + g), sy),
             (sx + (col : ℤ) * (w + g), sy + total_grid_height h g grid_rows))))
          ++ ((List.range (grid_rows + 1)).map (fun (row : ℕ) =>
            ((sx, sy + (row : ℤ) * (h + g)),
             (sx + total_grid_width w g grid_cols,
              sy + (row : ℤ) * (h + g))))) := rfl
    rw [he, List.length_append, List.length_map, List.length_map,
      List.length_range, List.length_range]
  · unfold total_grid_width
    ring
  · unfold total_grid_height
    ring

/-- Pixel-level fit along one axis: if `card*n + gap*(n-1) ≤ paper` holds in
millimeters, it also holds after each quantity is floored to pixels with the
shared scale `dpi / 25.4`. -/
lemma px_total_le (paper card gap dpi : ℚ) (n : ℕ) (hdpi : 0 < dpi)
    (hcard : 0 ≤ card) (hgap : 0 ≤ gap) (hn : 1 ≤ n)
    (hfit : card * n + gap * ((n : ℚ) - 1) ≤ paper) :
    mm_to_px card dpi * n + mm_to_px gap dpi * ((n : ℤ) - 1)
      ≤ mm_to_px paper dpi := by
  have hs := mm_to_pixels_pos hdpi
  have hn1 : (0 : ℚ) ≤ (n : ℚ) - 1 := by
    rw [sub_nonneg]
    exact_mod_cast hn
  have hpaper : (0 : ℚ) ≤ paper :=
    le_trans (by positivity) hfit
  rw [mm_to_px, mm_to_px, mm_to_px, pyInt_of_nonneg (mul_nonneg hcard hs.le),
    pyInt_of_nonneg (mul_nonneg hgap hs.le),
    pyInt_of_nonneg (mul_nonneg hpaper hs.le)]
  apply Int.le_floor.mpr
  push_cast
  calc (⌊card * mm_to_pixels dpi⌋ : ℚ) * n
        + (⌊gap * mm_to_pixels dpi⌋ : ℚ) * ((n : ℚ) - 1)
      ≤ (card * mm_to_pixels dpi) * n
        + (gap * mm_to_pixels dpi) * ((n : ℚ) - 1) :=
        add_le_add
          (mul_le_mul_of_nonneg_right (Int.floor_le _) (by positivity))
          (mul_le_mul_of_nonneg_right (Int.floor_le _) hn1)
    _ = (card * n + gap * ((n : ℚ) - 1)) * mm_to_pixels dpi := by ring
    _ ≤ paper * mm_to_pixels dpi :=
        mul_le_mul_of_nonneg_right hfit hs.le

/-- C10: whenever the millimeter-level grid-fit check passes with positive
dimensions, the independently floored pixel quantities still fit: the total
grid pixel size is at most the paper pixel size in each axis, the centering
offsets are non-negative, and the whole grid lies within the page canvas. -/
theorem pixel_grid_fits (paper_width_mm paper_height_mm card_width_mm
    card_height_mm gap_mm dpi : ℚ) (grid_cols grid_rows : ℕ)
    (hdpi : 0 < dpi) (hcw : 0 < card_width_mm) (hch : 0 < card_height_mm)
    (hgap : 0 < gap_mm) (hpw : 0 < paper_width_mm) (hph : 0 < paper_height_mm)
    (hcols : 1 ≤ grid_cols) (hrows : 1 ≤ grid_rows)
    (hwfit : card_width_mm * grid_cols + gap_mm * ((grid_cols : ℚ) - 1)
      ≤ paper_width_mm)
    (hhfit : card_height_mm * grid_rows + gap_mm * ((grid_rows : ℚ) - 1)
      ≤ paper_height_mm) :
    total_grid_width (mm_to_px card_width_mm dpi) (mm_to_px gap_mm dpi) grid_cols
      ≤ mm_to_px paper_width_mm dpi
    ∧ total_grid_height (mm_to_px card_height_mm dpi) (mm_to_px gap_mm dpi)
        grid_rows ≤ mm_to_px paper_height_mm dpi
    ∧ 0 ≤ start_x (mm_to_px paper_width_mm dpi)
        (total_grid_width (mm_to_px card_width_mm dpi) (mm_to_px gap_mm dpi)
          grid_cols)
    ∧ 0 ≤ start_y (mm_to_px paper_height_mm dpi)
        (total_grid_height (mm_to_px card_height_mm dpi) (mm_to_px gap_mm dpi)
          grid_rows)
    ∧ start_x (mm_to_px paper_width_mm dpi)
        (total_grid_width (mm_to_px card_width_mm dpi) (mm_to_px gap_mm dpi)
          grid_cols)
      + total_grid_width (mm_to_px card_width_mm dpi) (mm_to_px gap_mm dpi)
          grid_cols
      ≤ mm_to_px paper_width_mm dpi
    ∧ start_y (mm_to_px paper_height_mm dpi)
        (total_grid_height (mm_to_px card_height_mm dpi) (mm_to_px gap_mm dpi)
          grid_rows)
      + total_grid_height (mm_to_px card_height_mm dpi) (mm_to_px gap_mm dpi)
          grid_rows
      ≤ mm_to_px paper_height_mm dpi := by
  have hw : total_grid_width (mm_to_px card_width_mm dpi) (mm_to_px gap_mm dpi)
      grid_cols ≤ mm_to_px paper_width_mm dpi :=
    px_total_le paper_width_mm card_width_mm gap_mm dpi grid_cols hdpi hcw.le
      hgap.le hcols hwfit
  have hh : total_grid_height (mm_to_px card_height_mm dpi)
      (mm_to_px gap_mm dpi) grid_rows ≤ mm_to_px paper_height_mm dpi :=
    px_total_le paper_height_mm card_height_mm gap_mm dpi grid_rows hdpi hch.le
      hgap.le hrows hhfit
  refine ⟨hw, hh, ?_, ?_, ?_, ?_⟩ <;>
    first
      | (rw [start_x, Int.fdiv_eq_ediv _ (by norm_num)]; omega)
      | (rw [start_y, Int.fdiv_eq_ediv _ (by norm_num)]; omega)

/-- Witness for C10: 63×88 mm cards, 3 mm gap, 4×2 grid on 297×210 mm paper
at 300 DPI. -/
theorem pixel_grid_fits_witness :
    total_grid_width (mm_to_px 63 300) (mm_to_px 3 300) 4 ≤ mm_to_px 297 300
    ∧ total_grid_height (mm_to_px 88 300) (mm_to_px 3 300) 2 ≤ mm_to_px 210 300
    ∧ 0 ≤ start_x (mm_to_px 297 300)
        (total_grid_width (mm_to_px 63 300) (mm_to_px 3 300) 4)
    ∧ 0 ≤ start_y (mm_to_px 210 300)
        (total_grid_height (mm_to_px 88 300) (mm_to_px 3 300) 2)
    ∧ start_x (mm_to_px 297 300)
        (total_grid_width (mm_to_px 63 300) (mm_to_px 3 300) 4)
      + total_grid_width (mm_to_px 63 300) (mm_to_px 3 300) 4
      ≤ mm_to_px 297 300
    ∧ start_y (mm_to_px 210 300)
        (total_grid_height (mm_to_px 88 300) (mm_to_px 3 300) 2)
      + total_grid_height (mm_to_px 88 300) (mm_to_px 3 300) 2
      ≤ mm_to_px 210 300 :=
  pixel_grid_fits 297 210 63 88 3 300 4 2 (by norm_num) (by norm_num)
    (by norm_num) (by norm_num) (by norm_num) (by norm_num) (by norm_num)
    (by norm_num) (by push_cast; norm_num) (by push_cast; norm_num)

/-- C1: for a validated configuration, the page grid follows the centering
formulas: total grid pixel width is `card_w_px*cols + gap_px*(cols-1)`,
`start_x` (and symmetrically `start_y`) is the floor of half the leftover
space, the card in page-slot `i` (row-major) sits at
`(start_x + (i mod cols)*(card_w_px+gap_px),
start_y + (i div cols)*(card_h_px+gap_px))`, and the right margin
`paper_w_px - (start_x + total_grid_w)` is `start_x` or `start_x + 1`. -/
theorem grid_layout_spec (pw ph cw ch gap dpi : ℚ) (grid_cols grid_rows : ℕ)
    (image_files : List String) (hdpi : 0 < dpi) (hcw : 0 < cw) (hch : 0 < ch)
    (hgap : 0 < gap) (hpw : 0 < pw) (hph : 0 < ph) (hcols : 1 ≤ grid_cols)
    (hrows : 1 ≤ grid_rows)
    (hwfit : cw * grid_cols + gap * ((grid_cols : ℚ) - 1) ≤ pw)
    (hhfit : ch * grid_rows + gap * ((grid_rows : ℚ) - 1) ≤ ph) :
    total_grid_width (mm_to_px cw dpi) (mm_to_px gap dpi) grid_cols
      = mm_to_px cw dpi * grid_cols + mm_to_px gap dpi * ((grid_cols : ℤ) - 1)
    ∧ start_x (mm_to_px pw dpi)
        (total_grid_width (mm_to_px cw dpi) (mm_to_px gap dpi) grid_cols)
      = ⌊((mm_to_px pw dpi : ℚ)
          - (total_grid_width (mm_to_px cw dpi) (mm_to_px gap dpi) grid_cols : ℚ))
          / 2⌋
    ∧ start_y (mm_to_px ph dpi)
        (total_grid_height (mm_to_px ch dpi) (mm_to_px gap dpi) grid_rows)
      = ⌊((mm_to_px ph dpi : ℚ)
          - (total_grid_height (mm_to_px ch dpi) (mm_to_px gap dpi) grid_rows : ℚ))
          / 2⌋
    ∧ place_cards (fun s => some s) image_files grid_rows grid_cols
        (start_x (mm_to_px pw dpi)
          (total_grid_width (mm_to_px cw dpi) (mm_to_px gap dpi) grid_cols))
        (start_y (mm_to_px ph dpi)
          (total_grid_height (mm_to_px ch dpi) (mm_to_px gap dpi) grid_rows))
        (mm_to_px cw dpi) (mm_to_px ch dpi) (mm_to_px gap dpi)
      = ((List.range (grid_rows * grid_cols)).filter
          (fun i => decide (i < image_files.length))).map
          (fun i =>
            (start_x (mm_to_px pw dpi)
                (total_grid_width (mm_to_px cw dpi) (mm_to_px gap dpi) grid_cols)
              + ((i % grid_cols : ℕ) : ℤ) * (mm_to_px cw dpi + mm_to_px gap dpi),
             start_y (mm_to_px ph dpi)
                (total_grid_height (mm_to_px ch dpi) (mm_to_px gap dpi) grid_rows)
              + ((i / grid_cols : ℕ) : ℤ) * (mm_to_px ch dpi + mm_to_px gap dpi),
             image_files.getD i ""))
    ∧ (mm_to_px pw dpi
        - (start_x (mm_to_px pw dpi)
            (total_grid_width (mm_to_px cw dpi) (mm_to_px gap dpi) grid_cols)
          + total_grid_width (mm_to_px cw dpi) (mm_to_px gap dpi) grid_cols)
        = start_x (mm_to_px pw dpi)
            (total_grid_width (mm_to_px cw dpi) (mm_to_px gap dpi) grid_cols)
      ∨ mm_to_px pw dpi
        - (start_x (mm_to_px pw dpi)
            (total_grid_width (mm_to_px cw dpi) (mm_to_px gap dpi) grid_cols)
          + total_grid_width (mm_to_px cw dpi) (mm_to_px gap dpi) grid_cols)
        = start_x (mm_to_px pw dpi)
            (total_grid_width (mm_to_px cw dpi) (mm_to_px gap dpi) grid_cols)
          + 1) := by
  refine ⟨rfl, start_x_eq_floor _ _, start_y_eq_floor _ _, ?_, ?_⟩
  · rw [place_cards_closed (fun s => some s) image_files grid_rows grid_cols
      (by omega)]
    exact congrFun (List.filterMap_eq_map _) _
  · rw [start_x, Int.fdiv_eq_ediv _ (by norm_num)]
    omega

/-- Witness for C1: 63×88 mm cards, 3 mm gap, 4×2 grid on 297×210 mm paper at
300 DPI with two card images. -/
theorem grid_layout_spec_witness :
    total_grid_width (mm_to_px 63 300) (mm_to_px 3 300) 4
      = mm_to_px 63 300 * (4 : ℕ) + mm_to_px 3 300 * (((4 : ℕ) : ℤ) - 1)
    ∧ start_x (mm_to_px 297 300)
        (total_grid_width (mm_to_px 63 300) (mm_to_px 3 300) 4)
      = ⌊((mm_to_px 297 300 : ℚ)
          - (total_grid_width (mm_to_px 63 300) (mm_to_px 3 300) 4 : ℚ)) / 2⌋
    ∧ start_y (mm_to_px 210 300)
        (total_grid_height (mm_to_px 88 300) (mm_to_px 3 300) 2)
      = ⌊((mm_to_px 210 300 : ℚ)
          - (total_grid_height (mm_to_px 88 300) (mm_to_px 3 300) 2 : ℚ)) / 2⌋
    ∧ place_cards (fun s => some s) ["a.png", "b.png"] 2 4
        (start_x (mm_to_px 297 300)
          (total_grid_width (mm_to_px 63 300) (mm_to_px 3 300) 4))
        (start_y (mm_to_px 210 300)
          (total_grid_height (mm_to_px 88 300) (mm_to_px 3 300) 2))
        (mm_to_px 63 300) (mm_to_px 88 300) (mm_to_px 3 300)
      = ((List.range (2 * 4)).filter
          (fun i => decide (i < (["a.png", "b.png"] : List String).length))).map
          (fun i =>
            (start_x (mm_to_px 297 300)
                (total_grid_width (mm_to_px 63 300) (mm_to_px 3 300) 4)
              + ((i % 4 : ℕ) : ℤ) * (mm_to_px 63 300 + mm_to_px 3 300),
             start_y (mm_to_px 210 300)
                (total_grid_height (mm_to_px 88 300) (mm_to_px 3 300) 2)
              + ((i / 4 : ℕ) : ℤ) * (mm_to_px 88 300 + mm_to_px 3 300),
             (["a.png", "b.png"] : List String).getD i ""))
    ∧ (mm_to_px 297 300
        - (start_x (mm_to_px 297 300)
            (total_grid_width (mm_to_px 63 300) (mm_to_px 3 300) 4)
          + total_grid_width (mm_to_px 63 300) (mm_to_px 3 300) 4)
        = start_x (mm_to_px 297 300)
            (total_grid_width (mm_to_px 63 300) (mm_to_px 3 300) 4)
      ∨ mm_to_px 297 300
        - (start_x (mm_to_px 297 300)
            (total_grid_width (mm_to_px 63 300) (mm_to_px 3 300) 4)
          + total_grid_width (mm_to_px 63 300) (mm_to_px 3 300) 4)
        = start_x (mm_to_px 297 300)
            (total_grid_width (mm_to_px 63 300) (mm_to_px 3 300) 4)
          + 1) :=
  grid_layout_spec 297 210 63 88 3 300 4 2 ["a.png", "b.png"] (by norm_num)
    (by norm_num) (by norm_num) (by norm_num) (by norm_num) (by norm_num)
    (by norm_num) (by norm_num) (by push_cast; norm_num) (by push_cast; norm_num)

/-- C4: for every occupied slot (row-major index below both the image count
and the grid capacity), exactly four corner crosses are drawn, centered on
the card corners `(x, y)`, `(x+w, y)`, `(x, y+h)`, `(x+w, y+h)`, each a
horizontal plus a vertical segment extending `mark_length_px` both ways,
where `mark_length_px = floor(MARK_LENGTH_MM * dpi / 25.4)`; unoccupied
slots get no marks. -/
theorem add_corner_marks_spec (num_images grid_rows grid_cols : ℕ)
    (sx sy w h g : ℤ) (mark_length_mm dpi : ℚ) (hcols : 1 ≤ grid_cols)
    (hmm : 0 ≤ mark_length_mm) (hdpi : 0 < dpi) :
    add_corner_marks num_images grid_rows grid_cols sx sy w h g mark_length_mm
        (mm_to_pixels dpi)
    = (((List.range (grid_rows * grid_cols)).filter
        (fun i => decide (i < num_images))).map
        (fun i =>
          let x := sx + ((i % grid_cols : ℕ) : ℤ) * (w + g)
          let y := sy + ((i / grid_cols : ℕ) : ℤ) * (h + g)
          let m := ⌊mark_length_mm * dpi / 25.4⌋
          [((x - m, y), (x + m, y)), ((x, y - m), (x, y + m)),
           ((x + w - m, y), (x + w + m, y)), ((x + w, y - m), (x + w, y + m)),
           ((x - m, y + h), (x + m, y + h)), ((x, y + h - m), (x, y + h + m)),
           ((x + w - m, y + h), (x + w + m, y + h)),
           ((x + w, y + h - m), (x + w, y + h + m))])).flatten := by
  have hm : pyInt (mark_length_mm * mm_to_pixels dpi)
      = ⌊mark_length_mm * dpi / 25.4⌋ := by
    rw [pyInt_of_nonneg (mul_nonneg hmm (mm_to_pixels_pos hdpi).le),
      mm_to_pixels, mul_div_assoc]
  simp only [add_corner_marks, hm]
  rw [row_major_flatten grid_cols num_images (by omega)
    (fun (row : ℕ) (col : ℕ) =>
      (([(sx + (col : ℤ) * (w + g), sy + (row : ℤ) * (h + g)),
         (sx + (col : ℤ) * (w + g) + w, sy + (row : ℤ) * (h + g)),
         (sx + (col : ℤ) * (w + g), sy + (row : ℤ) * (h + g) + h),
         (sx + (col : ℤ) * (w + g) + w, sy + (row : ℤ) * (h + g) + h)]).map
        (fun c => crossAt c.1 c.2 ⌊mark_length_mm * dpi / 25.4⌋)).flatten)
    grid_rows]
  exact congrArg List.flatten (List.map_congr_left (fun i _ => rfl))

/-- Witness for C4: three cards on a 2×2 grid of 10×20 px cards with 1 px
gap, 1 mm marks at 25.4 DPI (scale 1). -/
theorem add_corner_marks_spec_witness :
    add_corner_marks 3 2 2 0 0 10 20 1 1 (mm_to_pixels 25.4)
    = (((List.range (2 * 2)).filter (fun i => decide (i < 3))).map
        (fun i =>
          let x := (0 : ℤ) + ((i % 2 : ℕ) : ℤ) * (10 + 1)
          let y := (0 : ℤ) + ((i / 2 : ℕ) : ℤ) * (20 + 1)
          let m := ⌊(1 : ℚ) * 25.4 / 25.4⌋
          [((x - m, y), (x + m, y)), ((x, y - m), (x, y + m)),
           ((x + 10 - m, y), (x + 10 + m, y)), ((x + 10, y - m), (x + 10, y + m)),
           ((x - m, y + 20), (x + m, y + 20)), ((x, y + 20 - m), (x, y + 20 + m)),
           ((x + 10 - m, y + 20), (x + 10 + m, y + 20)),
           ((x + 10, y + 20 - m), (x + 10, y + 20 + m))])).flatten :=
  add_corner_marks_spec 3 2 2 0 0 10 20 1 1 25.4 (by norm_num) (by norm_num)
    (by norm_num)

end CardPrint
